import Mathlib

/-!
Verification of the session-scoped subtitle synchronization server
(`src/server/main.py`). The Python functions are embedded shallowly:

* `SubtitleEntry` mirrors `srt_parser.SubtitleEntry`.
* `bisect_right` embeds the CPython `bisect.bisect_right` binary search
  that `find_subtitle_index` calls; the `while lo < hi` loop is given a
  fuel argument (initialized to the list length, which bounds the
  number of iterations) so the function stays structurally recursive.
* `calculate_subtitle_delta`, the session operations
  (`session_init`, `session_time_update`, `handle_session_track_selection`,
  `close_session`, `create_session`, `inactivity_monitor_task`'s per-tick
  body) and the broadcast helpers are embedded as pure state transformers.
  Stateful effects are made explicit: WebSocket connections are opaque
  handles (`Nat`), a per-broadcast outcome function `ok : Nat → Bool`
  records which sends succeed, and each operation returns the messages it
  managed to send together with the updated state.  Timestamps
  (`time.time()`), playback positions and millisecond values are `Int`.
* Python dicts (insertion ordered, unique keys) become association lists.
-/

namespace MpvSubserver

/-- Mirrors `srt_parser.SubtitleEntry`: one timed subtitle unit. -/
structure SubtitleEntry where
  start_ms : Int
  end_ms : Int
  text : String
deriving DecidableEq, Repr

/-- The reduced entry dict `{"text": ..., "start_ms": ...}` sent to viewers. -/
structure SubtitleLine where
  text : String
  start_ms : Int
deriving DecidableEq, Repr

/-- `{"text": entries[i].text, "start_ms": entries[i].start_ms}` in
`calculate_subtitle_delta` and the `subtitles_init` payloads. -/
def reduceEntry (e : SubtitleEntry) : SubtitleLine :=
  { text := e.text, start_ms := e.start_ms }

/-- `AddSubtitles` / `RemoveSubtitles` dataclasses of `main.py`. -/
inductive SubtitleDeltaKind where
  | addSubtitles (subtitles : List SubtitleLine)
  | removeSubtitles (count : Nat)
deriving DecidableEq, Repr

/-- `SubtitleDelta = AddSubtitles | RemoveSubtitles | None`. -/
abbrev SubtitleDelta := Option SubtitleDeltaKind

/-- The CPython `bisect.bisect_right` loop body:
`while lo < hi: mid = (lo+hi)//2; if x < a[mid]: hi = mid else: lo = mid+1`.
The loop is driven by `fuel`, which only needs to dominate `hi - lo`
(the measure strictly decreases each iteration). -/
def bisectRightAux (a : List Int) (x : Int) : Nat → Nat → Nat → Nat
  | 0, lo, _ => lo
  | fuel + 1, lo, hi =>
    if lo < hi then
      if x < a.getD ((lo + hi) / 2) 0 then
        bisectRightAux a x fuel lo ((lo + hi) / 2)
      else
        bisectRightAux a x fuel ((lo + hi) / 2 + 1) hi
    else lo

/-- `bisect.bisect_right(a, x)` with default bounds `lo = 0`, `hi = len(a)`. -/
def bisect_right (a : List Int) (x : Int) : Nat :=
  bisectRightAux a x a.length 0 a.length

/-- `find_subtitle_index(entries, time_ms)` from `main.py`:
`bisect.bisect_right([e.start_ms for e in entries], time_ms)`. -/
def find_subtitle_index (entries : List SubtitleEntry) (time_ms : Int) : Nat :=
  bisect_right (entries.map (fun e => e.start_ms)) time_ms

/-- `calculate_subtitle_delta(old_index, new_index, entries)` from `main.py`.
The `for i in range(old_index, new_index): if i < len(entries): ...`
loop is `filterMap` of the optional lookup `entries[i]?` over the range. -/
def calculate_subtitle_delta (old_index new_index : Nat)
    (entries : List SubtitleEntry) : SubtitleDelta :=
  if new_index = old_index then
    none
  else if old_index < new_index then
    some (.addSubtitles
      ((List.range' old_index (new_index - old_index)).filterMap
        (fun i => (entries[i]?).map reduceEntry)))
  else
    some (.removeSubtitles (old_index - new_index))

/-- Entries sorted ascending by `start_ms`, as the parser guarantees. -/
def SortedByStart (entries : List SubtitleEntry) : Prop :=
  entries.Pairwise (fun e1 e2 => e1.start_ms ≤ e2.start_ms)

instance (entries : List SubtitleEntry) : Decidable (SortedByStart entries) :=
  inferInstanceAs (Decidable (entries.Pairwise _))

/-- A sample track (the entries used throughout the repository's tests). -/
def sampleEntries : List SubtitleEntry :=
  [{ start_ms := 1000, end_ms := 2000, text := "First" },
   { start_ms := 3000, end_ms := 4000, text := "Second" },
   { start_ms := 5000, end_ms := 6000, text := "Third" }]

/-! ### Session and registry state (`main.py`) -/

/-- The `Session` dataclass.  WebSocket handles are `Nat`; the Python `set`
of connected clients is a list of handles (`set` iteration order is made
explicit, which only the broadcast bookkeeping observes). -/
structure Session where
  session_id : String
  video_title : String := ""
  subtitle_tracks : List (String × List SubtitleEntry) := []
  current_track : String := ""
  current_time_ms : Int := 0
  current_index : Nat := 0
  last_activity : Int := 0
  created_at : Int := 0
  connected_clients : List Nat := []
deriving DecidableEq, Repr

/-- `session.subtitle_tracks[name]` guarded by `name in session.subtitle_tracks`:
the insertion-ordered dict is an association list. -/
def lookupTrack (tracks : List (String × List SubtitleEntry)) (name : String) :
    Option (List SubtitleEntry) :=
  (tracks.find? (fun t => t.1 == name)).map (fun t => t.2)

/-- `list(tracks.keys())`. -/
def trackKeys (tracks : List (String × List SubtitleEntry)) : List String :=
  tracks.map (fun t => t.1)

/-- One row of the `sessions_list` payload built by `broadcast_sessions_list`. -/
structure SessionSummary where
  session_id : String
  video_title : String
  last_activity : Int
  created_at : Int
  connected_clients : Nat
deriving DecidableEq, Repr

def summarize (sid : String) (s : Session) : SessionSummary :=
  { session_id := sid, video_title := s.video_title,
    last_activity := s.last_activity, created_at := s.created_at,
    connected_clients := s.connected_clients.length }

/-- Outbound WebSocket message kinds (`send_json` payload shapes). -/
inductive Message where
  | tracksList (tracks : List String) (currentTrack videoTitle : String)
  | subtitlesInit (lines : List SubtitleLine)
  | subtitleAdd (subtitle : SubtitleLine)
  | subtitleRemove (count : Nat)
  | sessionClosed
  | sessionsList (sessions : List SessionSummary)
deriving DecidableEq, Repr

/-- HTTP handler statuses the session routes return. -/
inductive Status where
  | ok
  | sessionNotFound
deriving DecidableEq, Repr

/-- What one broadcast loop did: the connections it attempted (in order),
the `(connection, message)` sends that succeeded, and the connections whose
send raised and that were collected for pruning. -/
structure BroadcastOutcome where
  attempted : List Nat
  sent : List (Nat × Message)
  disconnected : List Nat
deriving DecidableEq, Repr

def emptyOutcome : BroadcastOutcome := { attempted := [], sent := [], disconnected := [] }

/-- One iteration of the shared broadcast loop body:
`try: send to c except: disconnected.append(c)`. -/
def broadcastStep (ok : Nat → Bool) (msgs : Nat → List Message)
    (acc : BroadcastOutcome) (c : Nat) : BroadcastOutcome :=
  if ok c then
    { acc with attempted := acc.attempted ++ [c],
               sent := acc.sent ++ (msgs c).map (fun m => (c, m)) }
  else
    { acc with attempted := acc.attempted ++ [c],
               disconnected := acc.disconnected ++ [c] }

/-- The shared `for client in list(clients): try: send... except: disconnected.append`
loop.  `ok c` says whether sends to `c` succeed; `msgs c` is what the loop tries
to send to `c`. -/
def broadcastLoop (clients : List Nat) (ok : Nat → Bool) (msgs : Nat → List Message) :
    BroadcastOutcome :=
  clients.foldl (broadcastStep ok msgs) emptyOutcome

/-- `for client in disconnected: clients.discard(client)`. -/
def pruneClients (clients disconnected : List Nat) : List Nat :=
  clients.filter (fun c => !(disconnected.contains c))

/-- The registry slice of `app.state` that the claims are about. -/
structure ServerState where
  sessions : List (String × Session)
  global_clients : List Nat
  last_session_closed : Int
  shutdown_requested : Bool
deriving DecidableEq, Repr

/-- `app.state.sessions.get(session_id)`. -/
def getSession (st : ServerState) (session_id : String) : Option Session :=
  ((st.sessions.find? (fun p => p.1 == session_id)).map (fun p => p.2))

def updateSession (st : ServerState) (sid : String) (s : Session) : ServerState :=
  { st with sessions := st.sessions.map (fun p => if p.1 == sid then (sid, s) else p) }

/-- `broadcast_sessions_list()`: early return when there are no global
clients, otherwise send the session list to each, pruning failed sends. -/
def broadcast_sessions_list (st : ServerState) (ok : Nat → Bool) :
    ServerState × BroadcastOutcome :=
  if st.global_clients.isEmpty then
    (st, emptyOutcome)
  else
    let msg := Message.sessionsList (st.sessions.map (fun p => summarize p.1 p.2))
    let outcome := broadcastLoop st.global_clients ok (fun _ => [msg])
    ({ st with global_clients := pruneClients st.global_clients outcome.disconnected },
     outcome)

/-- The `subtitles_init` line list `send_initial_subtitles_for_session` builds:
`entries[: session.current_index]` for the current track, else `[]`. -/
def initialLines (s : Session) : List SubtitleLine :=
  match lookupTrack s.subtitle_tracks s.current_track with
  | none => []
  | some entries => (entries.take s.current_index).map reduceEntry

/-- `broadcast_subtitle_delta_for_session`: early returns when the session has
no clients or no current track or the delta is `None`; otherwise sends the
delta messages to every client and prunes the failed ones. -/
def broadcast_subtitle_delta_for_session (session : Session)
    (old_index new_index : Nat) (ok : Nat → Bool) : Session × BroadcastOutcome :=
  if session.connected_clients.isEmpty then
    (session, emptyOutcome)
  else
    match lookupTrack session.subtitle_tracks session.current_track with
    | none => (session, emptyOutcome)
    | some entries =>
      match calculate_subtitle_delta old_index new_index entries with
      | none => (session, emptyOutcome)
      | some (.addSubtitles subs) =>
        let outcome := broadcastLoop session.connected_clients ok
          (fun _ => subs.map Message.subtitleAdd)
        ({ session with
            connected_clients :=
              pruneClients session.connected_clients outcome.disconnected },
         outcome)
      | some (.removeSubtitles n) =>
        let outcome := broadcastLoop session.connected_clients ok
          (fun _ => [Message.subtitleRemove n])
        ({ session with
            connected_clients :=
              pruneClients session.connected_clients outcome.disconnected },
         outcome)

/-- `session_time_update` (the `/session/{id}/time` handler body once the
session was found): store the time, refresh activity, recompute the index by
binary search, and broadcast the delta only when the index changed. -/
def session_time_update (session : Session) (time_ms : Int) (now : Int)
    (ok : Nat → Bool) : Session × Status × List (Nat × Message) :=
  let old_index := session.current_index
  let s1 := { session with current_time_ms := time_ms, last_activity := now }
  let new_index :=
    match lookupTrack s1.subtitle_tracks s1.current_track with
    | some entries => find_subtitle_index entries time_ms
    | none => 0
  if new_index ≠ old_index then
    let s2 := { s1 with current_index := new_index }
    let r := broadcast_subtitle_delta_for_session s2 old_index new_index ok
    (r.1, Status.ok, r.2.sent)
  else
    (s1, Status.ok, [])

/-- Parse results for `req.subtitle_tracks` (filename, outcome).  Parsing is
the external collaborator (`parse_subtitles` in `main.py`); `none` models a
raised parse error, `some entries` a successful parse. -/
def parsedSuccesses (parsed : List (String × Option (List SubtitleEntry))) :
    List (String × List SubtitleEntry) :=
  parsed.filterMap (fun p => p.2.map (fun entries => (p.1, entries)))

/-- `session_init` (the `/session/{id}/init` handler body once the session was
found): keep the successfully parsed tracks, point `current_track` at the
first of them when there is one (otherwise leave it alone), zero the index and
time, refresh activity, broadcast the track list (pruning failed sends) and
then send each surviving client the initial subtitle state (failures only
logged). -/
def session_init (session : Session) (video_title : String)
    (parsed : List (String × Option (List SubtitleEntry))) (now : Int)
    (ok : Nat → Bool) : Session × Status × List (Nat × Message) :=
  let successes := parsedSuccesses parsed
  let s1 := { session with video_title := video_title, subtitle_tracks := successes }
  let s2 :=
    match successes.head? with
    | some t => { s1 with current_track := t.1 }
    | none => s1
  let s3 := { s2 with current_index := 0, current_time_ms := 0, last_activity := now }
  let tracksMsg := Message.tracksList (trackKeys s3.subtitle_tracks)
    s3.current_track s3.video_title
  let outcome := broadcastLoop s3.connected_clients ok (fun _ => [tracksMsg])
  let s4 := { s3 with
    connected_clients := pruneClients s3.connected_clients outcome.disconnected }
  let initMsgs := (s4.connected_clients.filter ok).map
    (fun c => (c, Message.subtitlesInit (initialLines s4)))
  (s4, Status.ok, outcome.sent ++ initMsgs)

/-- `handle_session_track_selection` once the session was found: if the track
exists, switch to it, recompute the index at the current time and push a full
re-sync (`subtitles_init`) to every client (send failures only logged, no
pruning); otherwise log and do nothing. -/
def handle_session_track_selection (session : Session) (track : String)
    (ok : Nat → Bool) : Session × List (Nat × Message) :=
  match lookupTrack session.subtitle_tracks track with
  | some entries =>
    let s1 := { session with
      current_track := track,
      current_index := find_subtitle_index entries session.current_time_ms }
    (s1, (s1.connected_clients.filter ok).map
      (fun c => (c, Message.subtitlesInit (initialLines s1))))
  | none => (session, [])

/-- `close_session`: absent ids are a no-op; otherwise notify and close the
session's clients (failures only logged), delete the session, broadcast the
session list, and when the map became empty record `last_session_closed`. -/
def close_session (st : ServerState) (session_id : String) (now : Int)
    (ok : Nat → Bool) : ServerState × List (Nat × Message) :=
  match st.sessions.find? (fun p => p.1 == session_id) with
  | none => (st, [])
  | some entry =>
    let closeMsgs := (entry.2.connected_clients.filter ok).map
      (fun c => (c, Message.sessionClosed))
    let st1 := { st with
      sessions := st.sessions.filter (fun p => !(p.1 == session_id)) }
    let r := broadcast_sessions_list st1 ok
    let st3 :=
      if r.1.sessions.isEmpty then { r.1 with last_session_closed := now } else r.1
    (st3, closeMsgs ++ r.2.sent)

/-- `create_session` (with the fresh id passed in; `uuid.uuid4()` is the
external id generator): insert an empty session and broadcast the list. -/
def create_session (st : ServerState) (sid : String) (now : Int)
    (ok : Nat → Bool) : ServerState × List (Nat × Message) :=
  let session : Session := { session_id := sid, last_activity := now, created_at := now }
  let st1 := { st with sessions := st.sessions ++ [(sid, session)] }
  let r := broadcast_sessions_list st1 ok
  (r.1, r.2.sent)

/-- `config.INACTIVITY_SHUTDOWN_SECONDS` (env default `"30"`). -/
def INACTIVITY_SHUTDOWN_SECONDS : Int := 30

/-- One iteration of `inactivity_monitor_task`: only when the session map is
empty and the idle duration exceeds the timeout does it set the shutdown
event and send `SIGTERM` to the process — both modeled by the
`shutdown_requested` flag. -/
def inactivity_monitor_tick (st : ServerState) (now : Int) : ServerState :=
  if st.sessions.isEmpty then
    if now - st.last_session_closed > INACTIVITY_SHUTDOWN_SECONDS then
      { st with shutdown_requested := true }
    else st
  else st

/-- `/session/{id}/time` route: 404 when the session is unknown. -/
def session_time_update_route (st : ServerState) (sid : String) (time_ms : Int)
    (now : Int) (ok : Nat → Bool) : ServerState × Status × List (Nat × Message) :=
  match getSession st sid with
  | none => (st, Status.sessionNotFound, [])
  | some s =>
    let r := session_time_update s time_ms now ok
    (updateSession st sid r.1, r.2.1, r.2.2)

/-- `/session/{id}/init` route: 404 when unknown, then the session-level init
followed by a `sessions_list` broadcast. -/
def session_init_route (st : ServerState) (sid : String) (video_title : String)
    (parsed : List (String × Option (List SubtitleEntry))) (now : Int)
    (ok : Nat → Bool) : ServerState × Status × List (Nat × Message) :=
  match getSession st sid with
  | none => (st, Status.sessionNotFound, [])
  | some s =>
    let r := session_init s video_title parsed now ok
    let st1 := updateSession st sid r.1
    let r2 := broadcast_sessions_list st1 ok
    (r2.1, r.2.1, r.2.2 ++ r2.2.sent)

/-- The `selectTrack` client message dispatched by the session WebSocket
endpoint: silently ignored for unknown sessions. -/
def handle_session_track_selection_route (st : ServerState) (sid track : String)
    (ok : Nat → Bool) : ServerState × List (Nat × Message) :=
  match getSession st sid with
  | none => (st, [])
  | some s =>
    let r := handle_session_track_selection s track ok
    (updateSession st sid r.1, r.2)

/-- One step of the registry: any of the state-mutating operations of
`main.py`, with the per-broadcast send outcomes chosen by the environment.
The first index is the wall-clock reading (`time.time()`) at which the step
runs, so properties can relate a step's effect to the time it observed;
track selection never reads the clock, so its step stands at any time. -/
inductive RegistryStep : Int → ServerState → ServerState → Prop where
  | createStep (st : ServerState) (sid : String) (now : Int) (ok : Nat → Bool) :
      RegistryStep now st (create_session st sid now ok).1
  | closeStep (st : ServerState) (sid : String) (now : Int) (ok : Nat → Bool) :
      RegistryStep now st (close_session st sid now ok).1
  | monitorStep (st : ServerState) (now : Int) :
      RegistryStep now st (inactivity_monitor_tick st now)
  | initStep (st : ServerState) (sid video_title : String)
      (parsed : List (String × Option (List SubtitleEntry))) (now : Int)
      (ok : Nat → Bool) :
      RegistryStep now st (session_init_route st sid video_title parsed now ok).1
  | timeStep (st : ServerState) (sid : String) (time_ms now : Int) (ok : Nat → Bool) :
      RegistryStep now st (session_time_update_route st sid time_ms now ok).1
  | selectStep (st : ServerState) (sid track : String) (now : Int) (ok : Nat → Bool) :
      RegistryStep now st (handle_session_track_selection_route st sid track ok).1

/-! ### Concrete states used by the witnesses -/

/-- Send outcome failing exactly connections `2` and `5`. -/
def okExceptTwoFive : Nat → Bool := fun c => decide (c ≠ 2 ∧ c ≠ 5)

/-- A session with the sample track selected and three subscribers. -/
def wSession : Session :=
  { session_id := "w", subtitle_tracks := [("a", sampleEntries)],
    current_track := "a", connected_clients := [1, 2, 3] }

/-- A registry holding `wSession` plus three global subscribers. -/
def wServer : ServerState :=
  { sessions := [("w", wSession)], global_clients := [4, 5, 6],
    last_session_closed := 0, shutdown_requested := false }

/-- A registry with no sessions whose idle clock started at `0`. -/
def emptyServer : ServerState :=
  { sessions := [], global_clients := [], last_session_closed := 0,
    shutdown_requested := false }

/-- A session whose `current_track` names no existing track. -/
def noTrackSession : Session :=
  { session_id := "n", subtitle_tracks := [], current_track := "a",
    current_time_ms := 42, current_index := 5, connected_clients := [7] }

/-- A track whose first entry starts at `00:00:00,000` — a value the SRT
parser accepts (`start_ms = 0 < end_ms`). -/
def zeroStartTrack : List SubtitleEntry :=
  [{ start_ms := 0, end_ms := 1000, text := "hi" }]

/-- The state-machine invariant of spec §4.3: the stored cursor agrees with
the Timeline Index at the stored position (count 0 when the current track is
not a key of the track map). -/
def sessionInvariant (s : Session) : Prop :=
  s.current_index =
    match lookupTrack s.subtitle_tracks s.current_track with
    | some entries => find_subtitle_index entries s.current_time_ms
    | none => 0

instance (s : Session) : Decidable (sessionInvariant s) :=
  inferInstanceAs (Decidable (_ = _))

/-! ### Correctness of the binary search -/

/-- Unwrap `getD` into a dependent lookup when the index is in range. -/
lemma getD_eq_getElem_of_lt (l : List Int) (i : Nat) (h : i < l.length) :
    l.getD i 0 = l[i] := by
  rw [List.getD_eq_getElem?_getD, List.getElem?_eq_getElem h]
  rfl

/-- In a list sorted by `≤`, positional lookups are monotone. -/
lemma sorted_getD_mono (a : List Int) (hs : a.Pairwise (fun p q => p ≤ q))
    (i j : Nat) (hij : i ≤ j) (hj : j < a.length) : a.getD i 0 ≤ a.getD j 0 := by
  rcases Nat.lt_or_ge i j with hlt | hge
  · have hi : i < a.length := lt_trans hlt hj
    rw [getD_eq_getElem_of_lt a i hi, getD_eq_getElem_of_lt a j hj]
    exact List.pairwise_iff_getElem.mp hs i j hi hj hlt
  · have : i = j := le_antisymm hij hge
    subst this
    exact le_refl _

/-- If the first `k` positions are `≤ x` and all later ones are `> x`, then
exactly `k` elements of the list are `≤ x`. -/
lemma countP_eq_of_split (x : Int) :
    ∀ (a : List Int) (k : Nat), k ≤ a.length →
      (∀ i, i < k → a.getD i 0 ≤ x) →
      (∀ i, k ≤ i → i < a.length → x < a.getD i 0) →
      a.countP (fun y => decide (y ≤ x)) = k := by
  intro a
  induction a with
  | nil =>
    intro k hk _ _
    simp only [List.length_nil, Nat.le_zero] at hk
    simp [hk]
  | cons y l ih =>
    intro k hk h1 h2
    cases k with
    | zero =>
      rw [List.countP_cons]
      have hy : x < y := by
        have := h2 0 (Nat.zero_le _) (by simp)
        simpa using this
      have hl : l.countP (fun y => decide (y ≤ x)) = 0 := by
        apply ih 0 (Nat.zero_le _) (fun i hi => absurd hi (Nat.not_lt_zero i))
        intro i _ hi
        have := h2 (i + 1) (Nat.zero_le _) (by simpa using Nat.succ_lt_succ hi)
        simpa using this
      simp [hl, not_le.mpr hy]
    | succ k =>
      rw [List.countP_cons]
      have hy : y ≤ x := by
        have := h1 0 (Nat.succ_pos k)
        simpa using this
      have hl : l.countP (fun y => decide (y ≤ x)) = k := by
        apply ih k (by simpa using hk)
        · intro i hi
          have := h1 (i + 1) (Nat.succ_lt_succ hi)
          simpa using this
        · intro i hi1 hi2
          have := h2 (i + 1) (Nat.succ_le_succ hi1) (by simpa using Nat.succ_lt_succ hi2)
          simpa using this
      simp [hl, hy]

/-- The binary-search loop computes the count of elements `≤ x`, provided the
fuel dominates the remaining interval and the interval brackets the answer. -/
lemma bisectRightAux_eq_countP (a : List Int) (x : Int)
    (hs : a.Pairwise (fun p q => p ≤ q)) :
    ∀ (fuel lo hi : Nat), hi - lo ≤ fuel → lo ≤ hi → hi ≤ a.length →
      (∀ i, i < lo → a.getD i 0 ≤ x) →
      (∀ i, hi ≤ i → i < a.length → x < a.getD i 0) →
      bisectRightAux a x fuel lo hi = a.countP (fun y => decide (y ≤ x)) := by
  intro fuel
  induction fuel with
  | zero =>
    intro lo hi hfuel hlh hlen h1 h2
    have heq : lo = hi := by omega
    subst heq
    simp only [bisectRightAux]
    exact (countP_eq_of_split x a lo hlen h1 h2).symm
  | succ fuel ih =>
    intro lo hi hfuel hlh hlen h1 h2
    by_cases hlt : lo < hi
    · have hmlo : lo ≤ (lo + hi) / 2 := by omega
      have hmhi : (lo + hi) / 2 < hi := by omega
      simp only [bisectRightAux, if_pos hlt]
      by_cases hx : x < a.getD ((lo + hi) / 2) 0
      · rw [if_pos hx]
        refine ih lo ((lo + hi) / 2) (by omega) hmlo (by omega) h1 ?_
        intro i hi1 hi2
        exact lt_of_lt_of_le hx (sorted_getD_mono a hs _ i hi1 hi2)
      · rw [if_neg hx]
        refine ih ((lo + hi) / 2 + 1) hi (by omega) (by omega) hlen ?_ h2
        intro i hi1
        exact le_trans (sorted_getD_mono a hs i ((lo + hi) / 2) (by omega) (by omega))
          (not_lt.mp hx)
    · simp only [bisectRightAux, if_neg hlt]
      have heq : lo = hi := by omega
      subst heq
      exact (countP_eq_of_split x a lo hlen h1 h2).symm

/-- `bisect.bisect_right` on a sorted list counts the elements `≤ x`. -/
lemma bisect_right_eq_countP (a : List Int) (x : Int)
    (hs : a.Pairwise (fun p q => p ≤ q)) :
    bisect_right a x = a.countP (fun y => decide (y ≤ x)) :=
  bisectRightAux_eq_countP a x hs a.length 0 a.length (by omega) (Nat.zero_le _)
    (le_refl _) (fun i hi => absurd hi (Nat.not_lt_zero i))
    (fun _ hi1 hi2 => absurd hi2 (by omega))


/-- On a sorted track, `find_subtitle_index` counts entries with
`start_ms ≤ time_ms`. -/
lemma find_subtitle_index_eq_countP (entries : List SubtitleEntry) (p : Int)
    (hs : SortedByStart entries) :
    find_subtitle_index entries p =
      entries.countP (fun e => decide (e.start_ms ≤ p)) := by
  unfold find_subtitle_index
  rw [bisect_right_eq_countP _ _ (List.pairwise_map.mpr hs), List.countP_map]
  rfl


/-- The guarded index loop of `calculate_subtitle_delta` materializes the
Python slice `entries[a : a + n]` (clamped at the list length). -/
lemma range_filterMap_eq_slice :
    ∀ (n a : Nat) (l : List SubtitleEntry),
      (List.range' a n).filterMap (fun i => (l[i]?).map reduceEntry) =
        ((l.drop a).take n).map reduceEntry := by
  intro n
  induction n with
  | zero => simp
  | succ n ih =>
    intro a l
    rw [List.range'_succ]
    rcases Nat.lt_or_ge a l.length with ha | ha
    · rw [List.drop_eq_getElem_cons ha, List.take_succ_cons, List.map_cons, ← ih]
      simp [List.filterMap_cons, List.getElem?_eq_getElem ha]
    · have h2 : l.drop (a + 1) = [] :=
        List.drop_eq_nil_of_le (le_trans ha (Nat.le_succ a))
      have h3 := ih (a + 1) l
      rw [h2] at h3
      rw [List.drop_eq_nil_of_le ha]
      simp [List.filterMap_cons, List.getElem?_eq_none ha, h3]


/-! ### Claim C1: the Delta Engine contract -/

/-- Claim C1 (amended): for all counts `a`, `b` and entry lists `E`,
`calculate_subtitle_delta a b E` is `None` when `a = b`; when `a < b` it is
`Append` carrying the entries of the Python slice `E[a:b]` in order, each
reduced to `{text, start_ms}` — exactly `b - a` entries whenever
`b ≤ len(E)` (the loop clamps at the list length, so fewer are carried when
`b` exceeds it); and when `a > b` it is `Retract(a - b)` independent of
`E`'s contents. -/
theorem calculate_subtitle_delta_spec (old_index new_index : Nat)
    (entries : List SubtitleEntry) :
    (new_index = old_index →
      calculate_subtitle_delta old_index new_index entries = none) ∧
    (old_index < new_index →
      calculate_subtitle_delta old_index new_index entries =
        some (.addSubtitles
          (((entries.drop old_index).take (new_index - old_index)).map reduceEntry)) ∧
      (new_index ≤ entries.length →
        ((entries.drop old_index).take (new_index - old_index)).length =
          new_index - old_index)) ∧
    (new_index < old_index →
      calculate_subtitle_delta old_index new_index entries =
        some (.removeSubtitles (old_index - new_index))) := by
  refine ⟨?_, ?_, ?_⟩
  · intro h
    unfold calculate_subtitle_delta
    rw [if_pos h]
  · intro h
    constructor
    · unfold calculate_subtitle_delta
      rw [if_neg (Nat.ne_of_gt h), if_pos h, range_filterMap_eq_slice]
    · intro hlen
      simp only [List.length_take, List.length_drop]
      omega
  · intro h
    unfold calculate_subtitle_delta
    rw [if_neg (Nat.ne_of_lt h), if_neg (by omega)]

/-- Claim C1 as literally stated fails: with `E = []`, `a = 0 < b = 1` the
delta is an `Append` carrying zero entries, not `b - a = 1` of them. -/
theorem calculate_subtitle_delta_claim_counterexample :
    calculate_subtitle_delta 0 1 ([] : List SubtitleEntry) =
      some (.addSubtitles ([] : List SubtitleLine)) ∧
    ([] : List SubtitleLine).length ≠ 1 - 0 := by
  constructor
  · rfl
  · decide

/-- Witness for C1 at the test suite's three-entry track. -/
theorem calculate_subtitle_delta_spec_witness :
    calculate_subtitle_delta 2 2 sampleEntries = none ∧
    calculate_subtitle_delta 1 3 sampleEntries =
      some (.addSubtitles (((sampleEntries.drop 1).take 2).map reduceEntry)) ∧
    ((sampleEntries.drop 1).take 2).length = 2 ∧
    calculate_subtitle_delta 3 1 sampleEntries =
      some (.removeSubtitles 2) :=
  ⟨(calculate_subtitle_delta_spec 2 2 sampleEntries).1 rfl,
   ((calculate_subtitle_delta_spec 1 3 sampleEntries).2.1 (by decide)).1,
   ((calculate_subtitle_delta_spec 1 3 sampleEntries).2.1 (by decide)).2 (by decide),
   (calculate_subtitle_delta_spec 3 1 sampleEntries).2.2 (by decide)⟩

/-! ### Claim C2: the Timeline Index contract -/

/-- Claim C2: on a track sorted ascending by `start_ms`,
`find_subtitle_index entries p` is the number of entries with
`start_ms ≤ p` (ties at exactly `p` included); in particular it is `0` for
the empty list, `0` when `p` precedes the first entry's start, and the full
length when `p` is at or past the last entry's start. -/
theorem find_subtitle_index_spec (entries : List SubtitleEntry) (p : Int)
    (hs : SortedByStart entries) :
    find_subtitle_index entries p =
      entries.countP (fun e => decide (e.start_ms ≤ p)) ∧
    (entries = [] → find_subtitle_index entries p = 0) ∧
    (∀ e0, entries.head? = some e0 → p < e0.start_ms →
      find_subtitle_index entries p = 0) ∧
    (∀ el, entries.getLast? = some el → el.start_ms ≤ p →
      find_subtitle_index entries p = entries.length) := by
  have main := find_subtitle_index_eq_countP entries p hs
  refine ⟨main, ?_, ?_, ?_⟩
  · intro h
    subst h
    rfl
  · intro e0 h0 hp
    rw [main, List.countP_eq_zero]
    intro e he
    cases entries with
    | nil => cases he
    | cons y l =>
      have hy : y = e0 := by
        simpa using h0
      subst hy
      rcases List.pairwise_cons.mp hs with ⟨hhead, _⟩
      have hle : y.start_ms ≤ e.start_ms := by
        rcases List.mem_cons.mp he with rfl | hmem
        · exact le_refl _
        · exact hhead e hmem
      simp only [decide_eq_true_eq, not_le]
      omega
  · intro el hl hp
    have hne : entries ≠ [] := by
      intro h
      subst h
      simp at hl
    have hpos : 0 < entries.length := List.length_pos.mpr hne
    have hlen : entries.length - 1 < entries.length := by omega
    rw [List.getLast?_eq_getElem?, List.getElem?_eq_getElem hlen] at hl
    have hel : entries[entries.length - 1] = el := by
      simpa using hl
    rw [main]
    apply List.countP_eq_length.mpr
    intro e he
    rcases List.mem_iff_getElem.mp he with ⟨i, hi, rfl⟩
    have hstart : entries[i].start_ms ≤ el.start_ms := by
      rcases Nat.lt_or_ge i (entries.length - 1) with h | h
      · rw [← hel]
        exact List.pairwise_iff_getElem.mp hs i _ hi hlen h
      · have : i = entries.length - 1 := by omega
        subst this
        rw [hel]
    simp only [decide_eq_true_eq]
    omega

/-- Witness for C2: counts at the test positions, the empty track, a
position before the first entry, and one past the last. -/
theorem find_subtitle_index_spec_witness :
    find_subtitle_index sampleEntries 3000 =
      sampleEntries.countP (fun e => decide (e.start_ms ≤ 3000)) ∧
    find_subtitle_index ([] : List SubtitleEntry) 1000 = 0 ∧
    find_subtitle_index sampleEntries 500 = 0 ∧
    find_subtitle_index sampleEntries 10000 = sampleEntries.length := by
  refine ⟨(find_subtitle_index_spec sampleEntries 3000 (by decide)).1, ?_, ?_, ?_⟩
  · exact (find_subtitle_index_spec [] 1000 (by decide)).2.1 rfl
  · exact (find_subtitle_index_spec sampleEntries 500 (by decide)).2.2.1
      { start_ms := 1000, end_ms := 2000, text := "First" } rfl (by decide)
  · exact (find_subtitle_index_spec sampleEntries 10000 (by decide)).2.2.2
      { start_ms := 5000, end_ms := 6000, text := "Third" } rfl (by decide)

/-! ### Claim C9: monotonicity of the visible count -/

/-- Claim C9: on a sorted track the visible count is monotone in the
position. -/
theorem find_subtitle_index_mono (entries : List SubtitleEntry) (p1 p2 : Int)
    (hs : SortedByStart entries) (hp : p1 ≤ p2) :
    find_subtitle_index entries p1 ≤ find_subtitle_index entries p2 := by
  rw [find_subtitle_index_eq_countP entries p1 hs,
    find_subtitle_index_eq_countP entries p2 hs]
  apply List.countP_mono_left
  intro e _ h
  simp only [decide_eq_true_eq] at h ⊢
  omega

/-- Witness for C9 at a pair of concrete positions. -/
theorem find_subtitle_index_mono_witness :
    find_subtitle_index sampleEntries 1500 ≤ find_subtitle_index sampleEntries 3500 :=
  find_subtitle_index_mono sampleEntries 1500 3500 (by decide) (by decide)

/-! ### Claim C5: broadcast tolerates partial send failure -/

/-- Folding the broadcast body over any client list visits every client and
collects exactly the failed ones, in order. -/
lemma broadcastStep_foldl (ok : Nat → Bool) (msgs : Nat → List Message) :
    ∀ (clients : List Nat) (acc : BroadcastOutcome),
      ((clients.foldl (broadcastStep ok msgs) acc).attempted =
        acc.attempted ++ clients) ∧
      ((clients.foldl (broadcastStep ok msgs) acc).disconnected =
        acc.disconnected ++ clients.filter (fun c => !(ok c))) := by
  intro clients
  induction clients with
  | nil => simp
  | cons c cs ih =>
    intro acc
    rw [List.foldl_cons]
    have ih2 := ih (broadcastStep ok msgs acc c)
    by_cases hc : ok c = true
    · refine ⟨?_, ?_⟩
      · rw [ih2.1]
        simp [broadcastStep, hc]
      · rw [ih2.2]
        simp [broadcastStep, hc]
    · refine ⟨?_, ?_⟩
      · rw [ih2.1]
        simp [broadcastStep, hc]
      · rw [ih2.2]
        simp [broadcastStep, hc, List.filter_cons]

/-- The loop attempts delivery to every subscriber (no short-circuit). -/
lemma broadcastLoop_attempted (clients : List Nat) (ok : Nat → Bool)
    (msgs : Nat → List Message) :
    (broadcastLoop clients ok msgs).attempted = clients := by
  unfold broadcastLoop
  rw [(broadcastStep_foldl ok msgs clients emptyOutcome).1]
  rfl

/-- The loop collects exactly the failed subscribers for pruning. -/
lemma broadcastLoop_disconnected (clients : List Nat) (ok : Nat → Bool)
    (msgs : Nat → List Message) :
    (broadcastLoop clients ok msgs).disconnected =
      clients.filter (fun c => !(ok c)) := by
  unfold broadcastLoop
  rw [(broadcastStep_foldl ok msgs clients emptyOutcome).2]
  rfl

/-- Discarding the collected failures keeps exactly the subscribers whose
sends succeeded. -/
lemma pruneClients_filter (clients : List Nat) (ok : Nat → Bool) :
    pruneClients clients (clients.filter (fun c => !(ok c))) =
      clients.filter ok := by
  unfold pruneClients
  apply List.filter_congr
  intro c hc
  by_cases h : ok c = true
  · simp [List.elem_iff, List.mem_filter, h]
  · simp [List.elem_iff, List.mem_filter, h, hc]

/-- Claim C5: whenever a broadcast loop runs (global session lists and
session deltas alike), every connection in the subscriber set is attempted
regardless of individual failures, every connection whose send failed is
removed afterwards, and every connection whose sends succeeded remains. -/
theorem broadcast_partial_failure (ok : Nat → Bool) :
    (∀ st : ServerState, st.global_clients ≠ [] →
      (broadcast_sessions_list st ok).2.attempted = st.global_clients ∧
      (broadcast_sessions_list st ok).1.global_clients =
        st.global_clients.filter ok) ∧
    (∀ (s : Session) (old_index new_index : Nat) (entries : List SubtitleEntry),
      s.connected_clients ≠ [] →
      lookupTrack s.subtitle_tracks s.current_track = some entries →
      calculate_subtitle_delta old_index new_index entries ≠ none →
      (broadcast_subtitle_delta_for_session s old_index new_index ok).2.attempted =
        s.connected_clients ∧
      (broadcast_subtitle_delta_for_session s old_index new_index ok).1.connected_clients =
        s.connected_clients.filter ok) := by
  constructor
  · intro st hne
    have hki : st.global_clients.isEmpty = false := by
      simpa [List.isEmpty_iff] using hne
    unfold broadcast_sessions_list
    simp only [hki, Bool.false_eq_true, if_false]
    exact ⟨broadcastLoop_attempted _ _ _, by
      rw [broadcastLoop_disconnected, pruneClients_filter]⟩
  · intro s old_index new_index entries hne hlk hdelta
    have hki : s.connected_clients.isEmpty = false := by
      simpa [List.isEmpty_iff] using hne
    unfold broadcast_subtitle_delta_for_session
    simp only [hki, Bool.false_eq_true, if_false, hlk]
    rcases hd : calculate_subtitle_delta old_index new_index entries with _ | kind
    · exact absurd hd hdelta
    · cases kind with
      | addSubtitles subs =>
        refine ⟨broadcastLoop_attempted _ _ _, ?_⟩
        dsimp only
        rw [broadcastLoop_disconnected, pruneClients_filter]
      | removeSubtitles n =>
        refine ⟨broadcastLoop_attempted _ _ _, ?_⟩
        dsimp only
        rw [broadcastLoop_disconnected, pruneClients_filter]

/-- Witness for C5: connection 5 of the global set and connection 2 of the
session set fail; all three connections of each set are attempted and only
the failed one is pruned. -/
theorem broadcast_partial_failure_witness :
    (broadcast_sessions_list wServer okExceptTwoFive).2.attempted = [4, 5, 6] ∧
    (broadcast_sessions_list wServer okExceptTwoFive).1.global_clients = [4, 6] ∧
    (broadcast_subtitle_delta_for_session wSession 0 2 okExceptTwoFive).2.attempted =
      [1, 2, 3] ∧
    (broadcast_subtitle_delta_for_session wSession 0 2 okExceptTwoFive).1.connected_clients =
      [1, 3] := by
  have h1 := (broadcast_partial_failure okExceptTwoFive).1 wServer (by decide)
  have h2 := (broadcast_partial_failure okExceptTwoFive).2 wSession 0 2 sampleEntries
    (by decide) (by decide) (by decide)
  exact ⟨h1.1.trans (by decide), h1.2.trans (by decide),
    h2.1.trans (by decide), h2.2.trans (by decide)⟩

/-! ### Claim C6: unknown track selection is a no-op -/

/-- Claim C6: selecting a track name that is not a key of the session's track
mapping leaves the whole session state unchanged and sends nothing. -/
theorem track_selection_unknown_noop (s : Session) (track : String)
    (ok : Nat → Bool) (h : lookupTrack s.subtitle_tracks track = none) :
    handle_session_track_selection s track ok = (s, []) := by
  unfold handle_session_track_selection
  rw [h]

/-- Witness for C6 on the sample session. -/
theorem track_selection_unknown_noop_witness :
    handle_session_track_selection wSession "missing" okExceptTwoFive =
      (wSession, []) :=
  track_selection_unknown_noop wSession "missing" okExceptTwoFive (by decide)

/-! ### Claim C7: deleting an absent session is a no-op -/

/-- Claim C7: `close_session` on an id absent from the registry changes
nothing — the session map, the idle timestamp and the subscriber sets are
untouched and no message is sent; deletion is therefore idempotent. -/
theorem close_session_absent_noop (st : ServerState) (sid : String)
    (now : Int) (ok : Nat → Bool) (h : getSession st sid = none) :
    close_session st sid now ok = (st, []) := by
  unfold close_session
  unfold getSession at h
  rcases hf : st.sessions.find? (fun p => p.1 == sid) with _ | e
  · rw [hf]
  · rw [hf] at h
    cases h

/-- Witness for C7: deleting an unknown id from the populated registry. -/
theorem close_session_absent_noop_witness :
    close_session wServer "zzz" 99 okExceptTwoFive = (wServer, []) :=
  close_session_absent_noop wServer "zzz" 99 okExceptTwoFive (by decide)

/-! ### Claim C8: time updates without a current track -/

/-- If the current track is not in the map, the delta broadcast returns at
once without touching the session or sending anything. -/
lemma broadcast_delta_no_track (s : Session) (old_index new_index : Nat)
    (ok : Nat → Bool)
    (h : lookupTrack s.subtitle_tracks s.current_track = none) :
    broadcast_subtitle_delta_for_session s old_index new_index ok =
      (s, emptyOutcome) := by
  unfold broadcast_subtitle_delta_for_session
  by_cases hc : s.connected_clients.isEmpty = true
  · simp [hc]
  · simp [hc, h]

/-- Claim C8: a session whose `current_track` is not a key of its track map
accepts every position update with status ok, recomputes its count to 0, and
broadcasts no subtitle message. -/
theorem time_update_without_track (s : Session) (time_ms now : Int)
    (ok : Nat → Bool)
    (h : lookupTrack s.subtitle_tracks s.current_track = none) :
    (session_time_update s time_ms now ok).2.1 = Status.ok ∧
    (session_time_update s time_ms now ok).1.current_index = 0 ∧
    (session_time_update s time_ms now ok).2.2 = [] := by
  unfold session_time_update
  dsimp only
  rw [h]
  by_cases hz : s.current_index = 0
  · simp [hz]
  · have hne : (0 : Nat) ≠ s.current_index := fun he => hz he.symm
    rw [if_pos hne]
    dsimp only
    rw [broadcast_delta_no_track
      { s with current_time_ms := time_ms, current_index := 0, last_activity := now }
      s.current_index 0 ok h]
    exact ⟨rfl, rfl, rfl⟩

/-- Witness for C8 on a session with no tracks at all. -/
theorem time_update_without_track_witness :
    (session_time_update noTrackSession 1234 9 okExceptTwoFive).2.1 = Status.ok ∧
    (session_time_update noTrackSession 1234 9 okExceptTwoFive).1.current_index = 0 ∧
    (session_time_update noTrackSession 1234 9 okExceptTwoFive).2.2 = [] :=
  time_update_without_track noTrackSession 1234 9 okExceptTwoFive (by decide)

/-! ### Claim C10: re-init where every track fails to parse -/

/-- Claim C10: when no track parses successfully, `session_init` keeps the
previous `current_track` (it is not reset), replaces `subtitle_tracks` with
the empty mapping and zeroes the index and time — so `current_track` may
afterwards name a track that no longer exists. -/
theorem init_all_parse_failures (s : Session) (video_title : String)
    (parsed : List (String × Option (List SubtitleEntry))) (now : Int)
    (ok : Nat → Bool) (h : ∀ p ∈ parsed, p.2 = none) :
    (session_init s video_title parsed now ok).1.current_track = s.current_track ∧
    (session_init s video_title parsed now ok).1.subtitle_tracks = [] ∧
    (session_init s video_title parsed now ok).1.current_index = 0 ∧
    (session_init s video_title parsed now ok).1.current_time_ms = 0 := by
  have hsucc : parsedSuccesses parsed = [] := by
    unfold parsedSuccesses
    refine List.filterMap_eq_nil_iff.mpr ?_
    intro p hp
    rw [h p hp]
    rfl
  unfold session_init
  rw [hsucc]
  exact ⟨rfl, rfl, rfl, rfl⟩

/-- Witness for C10: both tracks fail to parse; the stale track name
survives while the map empties. -/
theorem init_all_parse_failures_witness :
    (session_init wSession "t" [("a", none), ("b", none)] 3
        okExceptTwoFive).1.current_track = "a" ∧
    (session_init wSession "t" [("a", none), ("b", none)] 3
        okExceptTwoFive).1.subtitle_tracks = [] ∧
    (session_init wSession "t" [("a", none), ("b", none)] 3
        okExceptTwoFive).1.current_index = 0 ∧
    (session_init wSession "t" [("a", none), ("b", none)] 3
        okExceptTwoFive).1.current_time_ms = 0 :=
  init_all_parse_failures wSession "t" [("a", none), ("b", none)] 3
    okExceptTwoFive (by decide)

/-! ### Claim C3: the cursor invariant across session operations -/

/-- The delta broadcast only ever touches the subscriber set: the returned
session is the input with some subscriber list. -/
lemma broadcast_delta_shape (s : Session) (old_index new_index : Nat)
    (ok : Nat → Bool) :
    ∃ cc, (broadcast_subtitle_delta_for_session s old_index new_index ok).1 =
      { s with connected_clients := cc } := by
  unfold broadcast_subtitle_delta_for_session
  by_cases hc : s.connected_clients.isEmpty = true
  · exact ⟨s.connected_clients, by simp [hc]⟩
  · simp only [hc, Bool.false_eq_true, if_false]
    rcases hl : lookupTrack s.subtitle_tracks s.current_track with _ | entries
    · exact ⟨s.connected_clients, rfl⟩
    · dsimp only
      rcases hd : calculate_subtitle_delta old_index new_index entries with _ | kind
      · exact ⟨s.connected_clients, rfl⟩
      · cases kind with
        | addSubtitles subs => exact ⟨_, rfl⟩
        | removeSubtitles n => exact ⟨_, rfl⟩

/-- The delta broadcast preserves the cursor invariant (it only prunes
subscribers). -/
lemma sessionInvariant_broadcast_delta (s : Session) (old_index new_index : Nat)
    (ok : Nat → Bool) (h : sessionInvariant s) :
    sessionInvariant (broadcast_subtitle_delta_for_session s old_index new_index ok).1 := by
  obtain ⟨cc, hcc⟩ := broadcast_delta_shape s old_index new_index ok
  rw [hcc]
  unfold sessionInvariant at h ⊢
  dsimp only
  exact h

/-- Claim C3 (amended): the invariant
`current_index = find_subtitle_index(tracks[current_track], current_time_ms)`
(count 0 when `current_track` is absent) holds after every
`session_time_update` and after every `handle_session_track_selection` whose
track exists; after `session_init` it holds provided the first successfully
parsed track is sorted and has no entry with `start_ms ≤ 0` — the init path
resets the cursor to 0 without recomputing, so a first entry at exactly
`start_ms = 0` breaks it. -/
theorem session_invariant_after_operations :
    (∀ (s : Session) (time_ms now : Int) (ok : Nat → Bool),
      sessionInvariant (session_time_update s time_ms now ok).1) ∧
    (∀ (s : Session) (track : String) (ok : Nat → Bool),
      (lookupTrack s.subtitle_tracks track).isSome →
      sessionInvariant (handle_session_track_selection s track ok).1) ∧
    (∀ (s : Session) (video_title : String)
      (parsed : List (String × Option (List SubtitleEntry))) (now : Int)
      (ok : Nat → Bool),
      (∀ t entries, (parsedSuccesses parsed).head? = some (t, entries) →
        SortedByStart entries ∧ ∀ e ∈ entries, 0 < e.start_ms) →
      sessionInvariant (session_init s video_title parsed now ok).1) := by
  refine ⟨?_, ?_, ?_⟩
  · intro s time_ms now ok
    unfold session_time_update
    dsimp only
    rcases hl : lookupTrack s.subtitle_tracks s.current_track with _ | entries
    · dsimp only
      by_cases hz : (0 : Nat) ≠ s.current_index
      · rw [if_pos hz]
        dsimp only
        apply sessionInvariant_broadcast_delta
        unfold sessionInvariant
        dsimp only
        rw [hl]
      · rw [if_neg hz]
        unfold sessionInvariant
        dsimp only
        rw [hl]
        exact (not_ne_iff.mp hz).symm
    · dsimp only
      by_cases hz : find_subtitle_index entries time_ms ≠ s.current_index
      · rw [if_pos hz]
        dsimp only
        apply sessionInvariant_broadcast_delta
        unfold sessionInvariant
        dsimp only
        rw [hl]
      · rw [if_neg hz]
        unfold sessionInvariant
        dsimp only
        rw [hl]
        exact (not_ne_iff.mp hz).symm
  · intro s track ok hsome
    obtain ⟨entries, hl⟩ := Option.isSome_iff_exists.mp hsome
    unfold handle_session_track_selection
    rw [hl]
    unfold sessionInvariant
    dsimp only
    rw [hl]
  · intro s video_title parsed now ok hfirst
    unfold session_init
    dsimp only
    rcases hh : (parsedSuccesses parsed).head? with _ | t0
    · have hnil : parsedSuccesses parsed = [] := List.head?_eq_none_iff.mp hh
      unfold sessionInvariant
      dsimp only
      rw [hnil]
      rfl
    · obtain ⟨n0, entries0⟩ := t0
      dsimp only
      have hse := hfirst n0 entries0 hh
      have hex : ∃ tail, parsedSuccesses parsed = (n0, entries0) :: tail := by
        rcases hps : parsedSuccesses parsed with _ | ⟨a, tl⟩
        · rw [hps] at hh
          cases hh
        · rw [hps] at hh
          simp only [List.head?_cons, Option.some.injEq] at hh
          exact ⟨tl, by rw [hh]⟩
      obtain ⟨tail, htail⟩ := hex
      unfold sessionInvariant
      dsimp only
      rw [htail]
      have hlk : lookupTrack ((n0, entries0) :: tail) n0 = some entries0 := by
        unfold lookupTrack
        simp [List.find?_cons]
      rw [hlk]
      dsimp only
      rw [find_subtitle_index_eq_countP entries0 0 hse.1]
      symm
      rw [List.countP_eq_zero]
      intro e he
      have hpos := hse.2 e he
      simp only [decide_eq_true_eq, not_le]
      omega

/-- Claim C3 as stated fails at `session_init`: re-initializing a fresh
session with a single parseable track whose first entry starts at
`start_ms = 0` leaves `current_index = 0` while the Timeline Index counts
one visible entry at time 0. -/
theorem session_invariant_init_counterexample :
    ¬ sessionInvariant
      (session_init { session_id := "z" } "v" [("a", some zeroStartTrack)] 0
        (fun _ => true)).1 := by
  decide

/-- Witness for C3 at concrete sessions: a time update without a current
track, a selection of the existing track, and an init whose first parsed
track starts strictly after 0. -/
theorem session_invariant_after_operations_witness :
    sessionInvariant (session_time_update noTrackSession 1234 9 okExceptTwoFive).1 ∧
    sessionInvariant
      (handle_session_track_selection wSession "a" okExceptTwoFive).1 ∧
    sessionInvariant
      (session_init wSession "t" [("b", some sampleEntries)] 3 okExceptTwoFive).1 := by
  refine ⟨session_invariant_after_operations.1 noTrackSession 1234 9 okExceptTwoFive,
    session_invariant_after_operations.2.1 wSession "a" okExceptTwoFive (by decide),
    session_invariant_after_operations.2.2 wSession "t"
      [("b", some sampleEntries)] 3 okExceptTwoFive ?_⟩
  intro t entries h
  have h3 : some (("b", sampleEntries)) = some ((t, entries)) := h
  injection h3 with h4
  obtain ⟨rfl, rfl⟩ : "b" = t ∧ sampleEntries = entries :=
    ⟨congrArg Prod.fst h4, congrArg Prod.snd h4⟩
  exact ⟨by decide, by decide⟩

/-! ### Claim C4: shutdown only after idle timeout with no sessions -/

/-- `broadcast_sessions_list` only touches the global subscriber set. -/
lemma broadcast_sessions_list_fields (st : ServerState) (ok : Nat → Bool) :
    (broadcast_sessions_list st ok).1.sessions = st.sessions ∧
    (broadcast_sessions_list st ok).1.last_session_closed = st.last_session_closed ∧
    (broadcast_sessions_list st ok).1.shutdown_requested = st.shutdown_requested := by
  unfold broadcast_sessions_list
  by_cases hc : st.global_clients.isEmpty = true
  · simp [hc]
  · simp [hc]

/-- Claim C4: across every registry step taken at wall-clock time `now`,
shutdown is initiated only when the starting state's session map is empty
and `now - last_session_closed` exceeds the configured idle timeout — the
guard of the monitor tick, evaluated at that step's own clock reading; a
monitor tick in a state with sessions changes nothing; and closing a
session that empties the map stamps `last_session_closed` with the current
time, restarting the idle clock. -/
theorem inactivity_shutdown_only_when_idle :
    (∀ (now : Int) (st st' : ServerState), RegistryStep now st st' →
      st'.shutdown_requested = true →
      st.shutdown_requested = true ∨
        (st.sessions = [] ∧
          now - st.last_session_closed > INACTIVITY_SHUTDOWN_SECONDS)) ∧
    (∀ (st : ServerState) (now : Int), st.sessions ≠ [] →
      inactivity_monitor_tick st now = st) ∧
    (∀ (st : ServerState) (sid : String) (now : Int) (ok : Nat → Bool),
      (getSession st sid).isSome →
      st.sessions.filter (fun p => !(p.1 == sid)) = [] →
      (close_session st sid now ok).1.last_session_closed = now) := by
  refine ⟨?_, ?_, ?_⟩
  · intro now st st' hstep hshut
    cases hstep with
    | createStep st sid now ok =>
      left
      unfold create_session at hshut
      dsimp only at hshut
      rw [(broadcast_sessions_list_fields _ ok).2.2] at hshut
      exact hshut
    | closeStep st sid now ok =>
      left
      unfold close_session at hshut
      rcases hf : st.sessions.find? (fun p => p.1 == sid) with _ | e
      · rw [hf] at hshut
        exact hshut
      · rw [hf] at hshut
        dsimp only at hshut
        split at hshut
        · dsimp only at hshut
          rw [(broadcast_sessions_list_fields _ ok).2.2] at hshut
          exact hshut
        · rw [(broadcast_sessions_list_fields _ ok).2.2] at hshut
          exact hshut
    | monitorStep st now =>
      unfold inactivity_monitor_tick at hshut
      by_cases h1 : st.sessions.isEmpty = true
      · by_cases h2 : now - st.last_session_closed > INACTIVITY_SHUTDOWN_SECONDS
        · exact Or.inr ⟨List.isEmpty_iff.mp h1, h2⟩
        · rw [if_pos h1, if_neg h2] at hshut
          exact Or.inl hshut
      · rw [if_neg h1] at hshut
        exact Or.inl hshut
    | initStep st sid video_title parsed now ok =>
      left
      unfold session_init_route at hshut
      rcases hg : getSession st sid with _ | s0
      · rw [hg] at hshut
        exact hshut
      · rw [hg] at hshut
        dsimp only at hshut
        rw [(broadcast_sessions_list_fields _ ok).2.2] at hshut
        unfold updateSession at hshut
        exact hshut
    | timeStep st sid time_ms now ok =>
      left
      unfold session_time_update_route at hshut
      rcases hg : getSession st sid with _ | s0
      · rw [hg] at hshut
        exact hshut
      · rw [hg] at hshut
        dsimp only at hshut
        unfold updateSession at hshut
        exact hshut
    | selectStep st sid track now ok =>
      left
      unfold handle_session_track_selection_route at hshut
      rcases hg : getSession st sid with _ | s0
      · rw [hg] at hshut
        exact hshut
      · rw [hg] at hshut
        dsimp only at hshut
        unfold updateSession at hshut
        exact hshut
  · intro st now hne
    unfold inactivity_monitor_tick
    have h1 : st.sessions.isEmpty = false := by
      simpa [List.isEmpty_iff] using hne
    simp [h1]
  · intro st sid now ok hsome hfl
    unfold close_session
    unfold getSession at hsome
    rcases hf : st.sessions.find? (fun p => p.1 == sid) with _ | e
    · rw [hf] at hsome
      cases hsome
    · rw [hf]
      dsimp only
      rw [hfl]
      split
      · rfl
      · case isFalse h =>
        exfalso
        apply h
        rw [(broadcast_sessions_list_fields _ ok).1]
        rfl

/-- Witness for C4: the monitor tick at time 31 on the idle registry (idle
clock started at 0, timeout 30) does initiate shutdown and the theorem pins
the guard to that very clock reading; a tick with a live session is the
identity; closing the only session at time 7 stamps the idle clock. -/
theorem inactivity_shutdown_only_when_idle_witness :
    (emptyServer.shutdown_requested = true ∨
      (emptyServer.sessions = [] ∧
        (31 : Int) - emptyServer.last_session_closed > INACTIVITY_SHUTDOWN_SECONDS)) ∧
    inactivity_monitor_tick wServer 5 = wServer ∧
    (close_session wServer "w" 7 okExceptTwoFive).1.last_session_closed = 7 := by
  refine ⟨?_, ?_, ?_⟩
  · exact inactivity_shutdown_only_when_idle.1 31 emptyServer
      (inactivity_monitor_tick emptyServer 31)
      (RegistryStep.monitorStep emptyServer 31) (by decide)
  · exact inactivity_shutdown_only_when_idle.2.1 wServer 5 (by decide)
  · exact inactivity_shutdown_only_when_idle.2.2 wServer "w" 7 okExceptTwoFive
      (by decide) (by decide)

end MpvSubserver
